import Mathlib

/-!
Shallow embedding of `src/server.py` (zerodha/kite-mcp-server).

The source is a protocol adapter: pydantic request models (enums and
request structures) plus one gateway operation per trading action, each
forwarding to an external broker client (`kite`).

Modelling conventions:
* String-valued Python enums become Lean inductives with a `value`
  function (the wire string) and a `parse` function embedding pydantic's
  value-based, case-sensitive enum validation.
* A raw JSON-ish input field is `RawField α`: `omitted` (key absent),
  `null` (key present with null), or `given v`.  Pydantic v1 maps both
  `omitted` and `null` to `None` for `Optional` fields and rejects both
  for required fields, which `collapse` captures.
* Model construction (pydantic `Model(**raw)`) becomes a `validate`
  function `Raw... → Option Request`.  The source declares NO custom
  validators on any model, so `validate` checks exactly what pydantic
  checks by default: required fields present, enum strings in the closed
  set.  No cross-field or range checks exist in the source.
* Python floats are carried opaquely (never computed with); they are
  modelled as `Rat`.
* `request.dict(...)` becomes a `List (String × ParamValue)` in field
  declaration order, with `exclude_none` dropping `none` fields.
* A gateway operation's outcome is `OpResult`: `ok`, `gatewayError`
  (an exception raised by the operation's own `except` clause, i.e. the
  uniform wrapped failure), or `uncaught` (a collaborator exception on a
  path with no `try`, propagating unwrapped out of the operation).
-/

namespace Kite

/-- `class OrderVariety(str, Enum)` from the source. -/
inductive OrderVariety where
  | REGULAR
  | CO
  | AMO
  | ICEBERG
  | AUCTION
  deriving DecidableEq, Repr

def OrderVariety.value : OrderVariety → String
  | .REGULAR => "regular"
  | .CO => "co"
  | .AMO => "amo"
  | .ICEBERG => "iceberg"
  | .AUCTION => "auction"

/-- Pydantic enum validation: accept exactly a member's wire value. -/
def OrderVariety.parse (s : String) : Option OrderVariety :=
  if s = "regular" then some .REGULAR
  else if s = "co" then some .CO
  else if s = "amo" then some .AMO
  else if s = "iceberg" then some .ICEBERG
  else if s = "auction" then some .AUCTION
  else none

/-- `class Exchange(str, Enum)` from the source. -/
inductive Exchange where
  | NSE
  | BSE
  | NFO
  | CDS
  | BFO
  | MCX
  | BCD
  deriving DecidableEq, Repr

def Exchange.value : Exchange → String
  | .NSE => "NSE"
  | .BSE => "BSE"
  | .NFO => "NFO"
  | .CDS => "CDS"
  | .BFO => "BFO"
  | .MCX => "MCX"
  | .BCD => "BCD"

def Exchange.parse (s : String) : Option Exchange :=
  if s = "NSE" then some .NSE
  else if s = "BSE" then some .BSE
  else if s = "NFO" then some .NFO
  else if s = "CDS" then some .CDS
  else if s = "BFO" then some .BFO
  else if s = "MCX" then some .MCX
  else if s = "BCD" then some .BCD
  else none

/-- `class TransactionType(str, Enum)` from the source. -/
inductive TransactionType where
  | BUY
  | SELL
  deriving DecidableEq, Repr

def TransactionType.value : TransactionType → String
  | .BUY => "BUY"
  | .SELL => "SELL"

def TransactionType.parse (s : String) : Option TransactionType :=
  if s = "BUY" then some .BUY
  else if s = "SELL" then some .SELL
  else none

/-- `class ProductType(str, Enum)` from the source. -/
inductive ProductType where
  | MIS
  | CNC
  | NRML
  | CO
  deriving DecidableEq, Repr

def ProductType.value : ProductType → String
  | .MIS => "MIS"
  | .CNC => "CNC"
  | .NRML => "NRML"
  | .CO => "CO"

def ProductType.parse (s : String) : Option ProductType :=
  if s = "MIS" then some .MIS
  else if s = "CNC" then some .CNC
  else if s = "NRML" then some .NRML
  else if s = "CO" then some .CO
  else none

/-- `class OrderType(str, Enum)` from the source; note `SLM`'s wire value
is the string `SL-M`. -/
inductive OrderType where
  | MARKET
  | LIMIT
  | SLM
  | SL
  deriving DecidableEq, Repr

def OrderType.value : OrderType → String
  | .MARKET => "MARKET"
  | .LIMIT => "LIMIT"
  | .SLM => "SL-M"
  | .SL => "SL"

def OrderType.parse (s : String) : Option OrderType :=
  if s = "MARKET" then some .MARKET
  else if s = "LIMIT" then some .LIMIT
  else if s = "SL-M" then some .SLM
  else if s = "SL" then some .SL
  else none

/-- `class Validity(str, Enum)` from the source. -/
inductive Validity where
  | DAY
  | IOC
  | TTL
  deriving DecidableEq, Repr

def Validity.value : Validity → String
  | .DAY => "DAY"
  | .IOC => "IOC"
  | .TTL => "TTL"

def Validity.parse (s : String) : Option Validity :=
  if s = "DAY" then some .DAY
  else if s = "IOC" then some .IOC
  else if s = "TTL" then some .TTL
  else none

/-- `class PositionType(str, Enum)` from the source (lower-case values). -/
inductive PositionType where
  | DAY
  | OVERNIGHT
  deriving DecidableEq, Repr

def PositionType.value : PositionType → String
  | .DAY => "day"
  | .OVERNIGHT => "overnight"

def PositionType.parse (s : String) : Option PositionType :=
  if s = "day" then some .DAY
  else if s = "overnight" then some .OVERNIGHT
  else none

/-- `class GTTType(str, Enum)` from the source; `OCO`'s wire value is
`two-leg`. -/
inductive GTTType where
  | SINGLE
  | OCO
  deriving DecidableEq, Repr

def GTTType.value : GTTType → String
  | .SINGLE => "single"
  | .OCO => "two-leg"

def GTTType.parse (s : String) : Option GTTType :=
  if s = "single" then some .SINGLE
  else if s = "two-leg" then some .OCO
  else none

/-- `class ChartInterval(str, Enum)` from the source. -/
inductive ChartInterval where
  | MINUTE
  | DAY
  | MINUTE_3
  | MINUTE_5
  | MINUTE_10
  | MINUTE_15
  | MINUTE_30
  | MINUTE_60
  deriving DecidableEq, Repr

def ChartInterval.value : ChartInterval → String
  | .MINUTE => "minute"
  | .DAY => "day"
  | .MINUTE_3 => "3minute"
  | .MINUTE_5 => "5minute"
  | .MINUTE_10 => "10minute"
  | .MINUTE_15 => "15minute"
  | .MINUTE_30 => "30minute"
  | .MINUTE_60 => "60minute"

def ChartInterval.parse (s : String) : Option ChartInterval :=
  if s = "minute" then some .MINUTE
  else if s = "day" then some .DAY
  else if s = "3minute" then some .MINUTE_3
  else if s = "5minute" then some .MINUTE_5
  else if s = "10minute" then some .MINUTE_10
  else if s = "15minute" then some .MINUTE_15
  else if s = "30minute" then some .MINUTE_30
  else if s = "60minute" then some .MINUTE_60
  else none

/-- A raw JSON field in a request mapping: key absent, key explicitly
null, or key with a value. -/
inductive RawField (α : Type) where
  | omitted
  | null
  | given (v : α)
  deriving DecidableEq, Repr

/-- Pydantic v1 collapses both `omitted` and `null` to `None`; a required
field then fails on `none`, an `Optional` field stores it. -/
def RawField.collapse {α : Type} : RawField α → Option α
  | .omitted => none
  | .null => none
  | .given v => some v

/-- Validation of an `Optional` enum-typed field: an absent or null key
becomes `None`; a present string must parse into the closed set. -/
def parseOpt {β : Type} (p : String → Option β) (f : RawField String) :
    Option (Option β) :=
  match f.collapse with
  | none => some none
  | some s => (p s).map some

/-- A value in the keyword-argument mapping forwarded to the broker
client.  With `use_enum_values = True` enum fields are carried as their
wire strings. -/
inductive ParamValue where
  | str (s : String)
  | int (n : Int)
  | num (q : Rat)
  deriving DecidableEq, Repr

/-- `class PlaceOrderRequest(BaseModel)` from the source: seven required
fields, nine `Optional` fields defaulting to `None`.  The source defines
no validator beyond pydantic's structural defaults. -/
structure PlaceOrderRequest where
  variety : OrderVariety
  exchange : Exchange
  tradingsymbol : String
  transaction_type : TransactionType
  quantity : Int
  product : ProductType
  order_type : OrderType
  price : Option Rat
  validity : Option Validity
  validity_ttl : Option Int
  disclosed_quantity : Option Int
  trigger_price : Option Rat
  iceberg_legs : Option Int
  iceberg_quantity : Option Int
  auction_number : Option Int
  tag : Option String
  deriving DecidableEq, Repr

/-- Raw input mapping for `PlaceOrderRequest(**raw)`. -/
structure RawPlaceOrderInput where
  variety : RawField String
  exchange : RawField String
  tradingsymbol : RawField String
  transaction_type : RawField String
  quantity : RawField Int
  product : RawField String
  order_type : RawField String
  price : RawField Rat
  validity : RawField String
  validity_ttl : RawField Int
  disclosed_quantity : RawField Int
  trigger_price : RawField Rat
  iceberg_legs : RawField Int
  iceberg_quantity : RawField Int
  auction_number : RawField Int
  tag : RawField String
  deriving DecidableEq, Repr

/-- Pydantic construction of `PlaceOrderRequest`: required fields must be
present, enum strings must be in their closed sets; `Optional` fields pass
through.  The source model declares no other validator, so no conditional
(cross-field) requirement is checked here. -/
def PlaceOrderRequest.validate (r : RawPlaceOrderInput) :
    Option PlaceOrderRequest := do
  let variety ← r.variety.collapse >>= OrderVariety.parse
  let exchange ← r.exchange.collapse >>= Exchange.parse
  let tradingsymbol ← r.tradingsymbol.collapse
  let transaction_type ← r.transaction_type.collapse >>= TransactionType.parse
  let quantity ← r.quantity.collapse
  let product ← r.product.collapse >>= ProductType.parse
  let order_type ← r.order_type.collapse >>= OrderType.parse
  let validity ← parseOpt Validity.parse r.validity
  some { variety, exchange, tradingsymbol, transaction_type, quantity,
         product, order_type,
         price := r.price.collapse,
         validity,
         validity_ttl := r.validity_ttl.collapse,
         disclosed_quantity := r.disclosed_quantity.collapse,
         trigger_price := r.trigger_price.collapse,
         iceberg_legs := r.iceberg_legs.collapse,
         iceberg_quantity := r.iceberg_quantity.collapse,
         auction_number := r.auction_number.collapse,
         tag := r.tag.collapse }

/-- Dict entry for an optional field under `exclude_none=True`: omitted
when the stored value is `None`. -/
def optEntry {α : Type} (name : String) (f : α → ParamValue) :
    Option α → List (String × ParamValue)
  | none => []
  | some v => [(name, f v)]

/-- `request.dict(exclude_none=True)` in `place_order`: every non-`None`
field in declaration order, enums as wire strings. -/
def PlaceOrderRequest.dictExcludeNone (r : PlaceOrderRequest) :
    List (String × ParamValue) :=
  [("variety", .str r.variety.value),
   ("exchange", .str r.exchange.value),
   ("tradingsymbol", .str r.tradingsymbol),
   ("transaction_type", .str r.transaction_type.value),
   ("quantity", .int r.quantity),
   ("product", .str r.product.value),
   ("order_type", .str r.order_type.value)]
  ++ optEntry "price" ParamValue.num r.price
  ++ optEntry "validity" (fun v => .str v.value) r.validity
  ++ optEntry "validity_ttl" ParamValue.int r.validity_ttl
  ++ optEntry "disclosed_quantity" ParamValue.int r.disclosed_quantity
  ++ optEntry "trigger_price" ParamValue.num r.trigger_price
  ++ optEntry "iceberg_legs" ParamValue.int r.iceberg_legs
  ++ optEntry "iceberg_quantity" ParamValue.int r.iceberg_quantity
  ++ optEntry "auction_number" ParamValue.int r.auction_number
  ++ optEntry "tag" ParamValue.str r.tag

/-- `class ModifyOrderRequest(BaseModel)` from the source. -/
structure ModifyOrderRequest where
  variety : OrderVariety
  order_id : String
  parent_order_id : Option String
  quantity : Option Int
  price : Option Rat
  order_type : Option OrderType
  trigger_price : Option Rat
  validity : Option Validity
  disclosed_quantity : Option Int
  deriving DecidableEq, Repr

/-- Raw input mapping for `ModifyOrderRequest(**raw)`. -/
structure RawModifyOrderInput where
  variety : RawField String
  order_id : RawField String
  parent_order_id : RawField String
  quantity : RawField Int
  price : RawField Rat
  order_type : RawField String
  trigger_price : RawField Rat
  validity : RawField String
  disclosed_quantity : RawField Int
  deriving DecidableEq, Repr

/-- Pydantic construction of `ModifyOrderRequest`: no validator beyond the
structural defaults. -/
def ModifyOrderRequest.validate (r : RawModifyOrderInput) :
    Option ModifyOrderRequest := do
  let variety ← r.variety.collapse >>= OrderVariety.parse
  let order_id ← r.order_id.collapse
  let order_type ← parseOpt OrderType.parse r.order_type
  let validity ← parseOpt Validity.parse r.validity
  some { variety, order_id,
         parent_order_id := r.parent_order_id.collapse,
         quantity := r.quantity.collapse,
         price := r.price.collapse,
         order_type,
         trigger_price := r.trigger_price.collapse,
         validity,
         disclosed_quantity := r.disclosed_quantity.collapse }

/-- The keyword-argument set of the `kite.modify_order(...)` call in the
source: `variety` and `order_id` are passed explicitly, followed by
`request.dict(exclude={'variety', 'order_id'}, exclude_none=True)` in
declaration order. -/
def ModifyOrderRequest.forwardedParams (r : ModifyOrderRequest) :
    List (String × ParamValue) :=
  [("variety", .str r.variety.value),
   ("order_id", .str r.order_id)]
  ++ optEntry "parent_order_id" ParamValue.str r.parent_order_id
  ++ optEntry "quantity" ParamValue.int r.quantity
  ++ optEntry "price" ParamValue.num r.price
  ++ optEntry "order_type" (fun v => .str v.value) r.order_type
  ++ optEntry "trigger_price" ParamValue.num r.trigger_price
  ++ optEntry "validity" (fun v => .str v.value) r.validity
  ++ optEntry "disclosed_quantity" ParamValue.int r.disclosed_quantity

/-- `class ConvertPositionRequest(BaseModel)` from the source: all fields
required. -/
structure ConvertPositionRequest where
  exchange : Exchange
  tradingsymbol : String
  transaction_type : TransactionType
  position_type : PositionType
  quantity : Int
  old_product : ProductType
  new_product : ProductType
  deriving DecidableEq, Repr

/-- Raw input mapping for `ConvertPositionRequest(**raw)`. -/
structure RawConvertPositionInput where
  exchange : RawField String
  tradingsymbol : RawField String
  transaction_type : RawField String
  position_type : RawField String
  quantity : RawField Int
  old_product : RawField String
  new_product : RawField String
  deriving DecidableEq, Repr

/-- Pydantic construction of `ConvertPositionRequest`: required fields and
enum membership only; the source declares no quantity constraint. -/
def ConvertPositionRequest.validate (r : RawConvertPositionInput) :
    Option ConvertPositionRequest := do
  let exchange ← r.exchange.collapse >>= Exchange.parse
  let tradingsymbol ← r.tradingsymbol.collapse
  let transaction_type ← r.transaction_type.collapse >>= TransactionType.parse
  let position_type ← r.position_type.collapse >>= PositionType.parse
  let quantity ← r.quantity.collapse
  let old_product ← r.old_product.collapse >>= ProductType.parse
  let new_product ← r.new_product.collapse >>= ProductType.parse
  some { exchange, tradingsymbol, transaction_type, position_type,
         quantity, old_product, new_product }

/-- `request.dict()` in `convert_position` (no field is optional, so
nothing is excluded). -/
def ConvertPositionRequest.dictFull (r : ConvertPositionRequest) :
    List (String × ParamValue) :=
  [("exchange", .str r.exchange.value),
   ("tradingsymbol", .str r.tradingsymbol),
   ("transaction_type", .str r.transaction_type.value),
   ("position_type", .str r.position_type.value),
   ("quantity", .int r.quantity),
   ("old_product", .str r.old_product.value),
   ("new_product", .str r.new_product.value)]

/-- `class GTTOrderParams(BaseModel)` from the source: all fields
required. -/
structure GTTOrderParams where
  transaction_type : TransactionType
  quantity : Int
  order_type : OrderType
  product : ProductType
  price : Rat
  deriving DecidableEq, Repr

/-- Raw input mapping for one GTT leg. -/
structure RawGTTOrderParams where
  transaction_type : RawField String
  quantity : RawField Int
  order_type : RawField String
  product : RawField String
  price : RawField Rat
  deriving DecidableEq, Repr

/-- Pydantic construction of a GTT leg: required fields and enum
membership only; no quantity constraint in the source. -/
def GTTOrderParams.validate (r : RawGTTOrderParams) :
    Option GTTOrderParams := do
  let transaction_type ← r.transaction_type.collapse >>= TransactionType.parse
  let quantity ← r.quantity.collapse
  let order_type ← r.order_type.collapse >>= OrderType.parse
  let product ← r.product.collapse >>= ProductType.parse
  let price ← r.price.collapse
  some { transaction_type, quantity, order_type, product, price }

/-- Element-wise validation of the `orders: List[GTTOrderParams]` field
(pydantic validates each list element). -/
def parseGTTOrders : List RawGTTOrderParams → Option (List GTTOrderParams)
  | [] => some []
  | o :: os => do
      let p ← GTTOrderParams.validate o
      let ps ← parseGTTOrders os
      some (p :: ps)

/-- `class PlaceGTTRequest(BaseModel)` from the source. -/
structure PlaceGTTRequest where
  trigger_type : GTTType
  tradingsymbol : String
  exchange : Exchange
  trigger_values : List Rat
  last_price : Rat
  orders : List GTTOrderParams
  deriving DecidableEq, Repr

/-- Raw input mapping for `PlaceGTTRequest(**raw)`. -/
structure RawPlaceGTTInput where
  trigger_type : RawField String
  tradingsymbol : RawField String
  exchange : RawField String
  trigger_values : RawField (List Rat)
  last_price : RawField Rat
  orders : RawField (List RawGTTOrderParams)
  deriving DecidableEq, Repr

/-- Pydantic construction of `PlaceGTTRequest`: required fields, enum
membership and element-wise leg validation only.  The source declares no
validator relating `trigger_type`, `trigger_values.length` and
`orders.length`. -/
def PlaceGTTRequest.validate (r : RawPlaceGTTInput) :
    Option PlaceGTTRequest := do
  let trigger_type ← r.trigger_type.collapse >>= GTTType.parse
  let tradingsymbol ← r.tradingsymbol.collapse
  let exchange ← r.exchange.collapse >>= Exchange.parse
  let trigger_values ← r.trigger_values.collapse
  let last_price ← r.last_price.collapse
  let rawOrders ← r.orders.collapse
  let orders ← parseGTTOrders rawOrders
  some { trigger_type, tradingsymbol, exchange, trigger_values,
         last_price, orders }

/-- `class ModifyGTTRequest(PlaceGTTRequest)` from the source: inherits
every field and adds a required `trigger_id`. -/
structure ModifyGTTRequest extends PlaceGTTRequest where
  trigger_id : String
  deriving DecidableEq, Repr

/-- Raw input mapping for `ModifyGTTRequest(**raw)`. -/
structure RawModifyGTTInput extends RawPlaceGTTInput where
  trigger_id : RawField String
  deriving DecidableEq, Repr

/-- Pydantic construction of `ModifyGTTRequest`: the inherited fields
validate as in `PlaceGTTRequest`, plus the required `trigger_id`.  Again
no length or trigger-type consistency validator exists in the source. -/
def ModifyGTTRequest.validate (r : RawModifyGTTInput) :
    Option ModifyGTTRequest := do
  let base ← PlaceGTTRequest.validate r.toRawPlaceGTTInput
  let trigger_id ← r.trigger_id.collapse
  some { toPlaceGTTRequest := base, trigger_id }

/-- Rendering of one forwarded keyword argument, used when a parameter
set is interpolated into an error message. -/
def ParamValue.render : ParamValue → String
  | .str s => s
  | .int n => toString n
  | .num q => toString q

/-- Rendering of a forwarded parameter set, the model of the Python
f-string interpolation of `order_params` (a dict) into the `place_order`
failure message.  Braces as in Python's dict repr. -/
def paramsRepr (ps : List (String × ParamValue)) : String :=
  "\x7b" ++ String.intercalate ", "
    (ps.map (fun p => p.1 ++ ": " ++ p.2.render)) ++ "\x7d"

/-- Outcome of one gateway operation as seen by the calling transport:
`ok` is a normal return; `gatewayError` is the uniform failure the
operation itself raises from its `except` clause (wrapping the
collaborator failure); `uncaught` is a collaborator exception on a path
with no `try`, leaving the operation unwrapped. -/
inductive OpResult (α : Type) where
  | ok (val : α)
  | gatewayError (msg : String)
  | uncaught (msg : String)
  deriving DecidableEq, Repr

def OpResult.isGatewayError {α : Type} : OpResult α → Bool
  | .gatewayError _ => true
  | _ => false

/-- `get_orders`: `return kite.orders()` with no `try`; a collaborator
exception propagates unwrapped. -/
def get_orders {α : Type} (kite_orders : Except String α) : OpResult α :=
  match kite_orders with
  | .ok v => .ok v
  | .error e => .uncaught e

/-- `get_trades`: `return kite.trades()` with no `try`. -/
def get_trades {α : Type} (kite_trades : Except String α) : OpResult α :=
  match kite_trades with
  | .ok v => .ok v
  | .error e => .uncaught e

/-- `get_positions`: `return kite.positions()` with no `try`. -/
def get_positions {α : Type} (kite_positions : Except String α) :
    OpResult α :=
  match kite_positions with
  | .ok v => .ok v
  | .error e => .uncaught e

/-- `get_holdings`: `return kite.holdings()` with no `try`. -/
def get_holdings {α : Type} (kite_holdings : Except String α) :
    OpResult α :=
  match kite_holdings with
  | .ok v => .ok v
  | .error e => .uncaught e

/-- `get_margins`: `return kite.margins(segment)` with no `try`. -/
def get_margins {α : Type} (kite_margins : Except String α) : OpResult α :=
  match kite_margins with
  | .ok v => .ok v
  | .error e => .uncaught e

/-- `get_profile`: `return kite.profile()` with no `try`. -/
def get_profile {α : Type} (kite_profile : Except String α) : OpResult α :=
  match kite_profile with
  | .ok v => .ok v
  | .error e => .uncaught e

/-- `place_order`: builds `order_params = request.dict(exclude_none=True)`,
calls `kite.place_order(**order_params)` inside `try`, and on exception
raises `Exception(f"Failed to place order [order_params]: [e]")`. -/
def place_order (kite_place_order : List (String × ParamValue) →
    Except String String) (request : PlaceOrderRequest) : OpResult String :=
  let order_params := request.dictExcludeNone
  match kite_place_order order_params with
  | .ok order_id => .ok ("Order placed successfully. Order ID: " ++ order_id)
  | .error e =>
      .gatewayError ("Failed to place order " ++ paramsRepr order_params
        ++ ": " ++ e)

/-- `modify_order`: calls `kite.modify_order(variety=..., order_id=...,
**request.dict(exclude=..., exclude_none=True))` inside `try`, on
exception raising `Exception(f"Failed to modify order: [e]")` (the
parameter set is not interpolated). -/
def modify_order (kite_modify_order : List (String × ParamValue) →
    Except String String) (request : ModifyOrderRequest) : OpResult String :=
  match kite_modify_order request.forwardedParams with
  | .ok order_id =>
      .ok ("Order modified successfully. Order ID: " ++ order_id)
  | .error e => .gatewayError ("Failed to modify order: " ++ e)

/-- `cancel_order`: `kite.cancel_order(variety, order_id, parent_order_id)`
inside `try`. -/
def cancel_order (kite_cancel_order : String → String → Option String →
    Except String String) (variety : OrderVariety) (order_id : String)
    (parent_order_id : Option String) : OpResult String :=
  match kite_cancel_order variety.value order_id parent_order_id with
  | .ok oid => .ok ("Order cancelled successfully. Order ID: " ++ oid)
  | .error e => .gatewayError ("Failed to cancel order: " ++ e)

/-- `convert_position`: `kite.convert_position(**request.dict())` inside
`try`. -/
def convert_position (kite_convert_position :
    List (String × ParamValue) → Except String Unit)
    (request : ConvertPositionRequest) : OpResult String :=
  match kite_convert_position request.dictFull with
  | .ok _ => .ok "Position converted successfully."
  | .error e => .gatewayError ("Failed to convert position: " ++ e)

/-- `place_gtt`: `kite.place_gtt(**request.dict())` inside `try`; the
collaborator call's outcome is the argument. -/
def place_gtt (call : Except String String) : OpResult String :=
  match call with
  | .ok trigger_id =>
      .ok ("GTT order placed successfully. Trigger ID: " ++ trigger_id)
  | .error e => .gatewayError ("Failed to place GTT order: " ++ e)

/-- `modify_gtt`: `kite.modify_gtt(trigger_id=..., **request.dict(...))`
inside `try`; the collaborator call's outcome is the argument. -/
def modify_gtt (call : Except String String) : OpResult String :=
  match call with
  | .ok trigger_id =>
      .ok ("GTT order modified successfully. Trigger ID: " ++ trigger_id)
  | .error e => .gatewayError ("Failed to modify GTT order: " ++ e)

/-- `delete_gtt`: `kite.delete_gtt(trigger_id)` inside `try`; on success a
fixed confirmation, on exception
`Exception(f"Failed to delete GTT order: [e]")` — the message does not
interpolate `trigger_id`. -/
def delete_gtt (kite_delete_gtt : String → Except String Unit)
    (trigger_id : String) : OpResult String :=
  match kite_delete_gtt trigger_id with
  | .ok _ => .ok "GTT order deleted successfully."
  | .error e => .gatewayError ("Failed to delete GTT order: " ++ e)

/-- `get_instrument_margins`: `kite.margins(segment)` inside `try`. -/
def get_instrument_margins {α : Type} (call : Except String α) :
    OpResult α :=
  match call with
  | .ok v => .ok v
  | .error e => .gatewayError ("Failed to get instrument margins: " ++ e)

/-- `get_basket_margins`: `kite.basket_order_margins(...)` inside `try`. -/
def get_basket_margins {α : Type} (call : Except String α) : OpResult α :=
  match call with
  | .ok v => .ok v
  | .error e => .gatewayError ("Failed to get basket margins: " ++ e)

/-- `get_order_history`: `kite.order_history(order_id)` inside `try`. -/
def get_order_history {α : Type} (call : Except String α) : OpResult α :=
  match call with
  | .ok v => .ok v
  | .error e => .gatewayError ("Failed to get order history: " ++ e)

/-- `get_order_trades`: `kite.order_trades(order_id)` inside `try`. -/
def get_order_trades {α : Type} (call : Except String α) : OpResult α :=
  match call with
  | .ok v => .ok v
  | .error e => .gatewayError ("Failed to get order trades: " ++ e)

/-- `get_quote`: `kite.quote(instruments)` inside `try`. -/
def get_quote {α : Type} (call : Except String α) : OpResult α :=
  match call with
  | .ok v => .ok v
  | .error e => .gatewayError ("Failed to get quote: " ++ e)

/-- `get_ohlc`: `kite.ohlc(instruments)` inside `try`. -/
def get_ohlc {α : Type} (call : Except String α) : OpResult α :=
  match call with
  | .ok v => .ok v
  | .error e => .gatewayError ("Failed to get OHLC: " ++ e)

/-- `get_ltp`: `kite.ltp(instruments)` inside `try`. -/
def get_ltp {α : Type} (call : Except String α) : OpResult α :=
  match call with
  | .ok v => .ok v
  | .error e => .gatewayError ("Failed to get LTP: " ++ e)

/-- `get_historical_data`: `kite.historical_data(...)` inside `try`. -/
def get_historical_data {α : Type} (call : Except String α) : OpResult α :=
  match call with
  | .ok v => .ok v
  | .error e => .gatewayError ("Failed to get historical data: " ++ e)

/-! ### Concrete fixtures used by the theorems -/

/-- The spec's end-to-end market-order input: seven fields given, every
optional field absent. -/
def rawOrderBase : RawPlaceOrderInput :=
  { variety := .given "regular", exchange := .given "NSE",
    tradingsymbol := .given "INFY", transaction_type := .given "BUY",
    quantity := .given 10, product := .given "CNC",
    order_type := .given "MARKET",
    price := .omitted, validity := .omitted, validity_ttl := .omitted,
    disclosed_quantity := .omitted, trigger_price := .omitted,
    iceberg_legs := .omitted, iceberg_quantity := .omitted,
    auction_number := .omitted, tag := .omitted }

/-- The validated request for `rawOrderBase`. -/
def infyMarketReq : PlaceOrderRequest :=
  { variety := .REGULAR, exchange := .NSE, tradingsymbol := "INFY",
    transaction_type := .BUY, quantity := 10, product := .CNC,
    order_type := .MARKET, price := none, validity := none,
    validity_ttl := none, disclosed_quantity := none, trigger_price := none,
    iceberg_legs := none, iceberg_quantity := none, auction_number := none,
    tag := none }

/-- A valid raw GTT leg. -/
def rawGTTLeg : RawGTTOrderParams :=
  { transaction_type := .given "BUY", quantity := .given 1,
    order_type := .given "LIMIT", product := .given "CNC",
    price := .given 100 }

/-- The validated leg for `rawGTTLeg`. -/
def gttLeg : GTTOrderParams :=
  { transaction_type := .BUY, quantity := 1, order_type := .LIMIT,
    product := .CNC, price := 100 }

/-- A raw GTT input whose `trigger_values` and `orders` lists have
arbitrary lengths `n` and `m`, with every individual field valid. -/
def rawGTTInput (tt : String) (n m : Nat) : RawPlaceGTTInput :=
  { trigger_type := .given tt, tradingsymbol := .given "INFY",
    exchange := .given "NSE",
    trigger_values := .given (List.replicate n (100 : Rat)),
    last_price := .given 1500,
    orders := .given (List.replicate m rawGTTLeg) }

/-- A valid raw position-conversion input. -/
def rawConvBase : RawConvertPositionInput :=
  { exchange := .given "NSE", tradingsymbol := .given "INFY",
    transaction_type := .given "BUY", position_type := .given "day",
    quantity := .given 10, old_product := .given "MIS",
    new_product := .given "CNC" }

/-- The validated request for `rawConvBase`. -/
def convReqBase : ConvertPositionRequest :=
  { exchange := .NSE, tradingsymbol := "INFY", transaction_type := .BUY,
    position_type := .DAY, quantity := 10, old_product := .MIS,
    new_product := .CNC }

/-- A modify-order request setting only `order_id`, `variety`, `price`. -/
def modReqA : ModifyOrderRequest :=
  { variety := .REGULAR, order_id := "ORD42", parent_order_id := none,
    quantity := none, price := some 101, order_type := none,
    trigger_price := none, validity := none, disclosed_quantity := none }

/-- Raw modify-order input whose unused optional fields are explicitly
null. -/
def rawModifyNulls : RawModifyOrderInput :=
  { variety := .given "regular", order_id := .given "ORD42",
    parent_order_id := .null, quantity := .null,
    price := .given 101, order_type := .null, trigger_price := .null,
    validity := .null, disclosed_quantity := .null }

/-- Raw modify-order input whose unused optional fields are omitted. -/
def rawModifyOmits : RawModifyOrderInput :=
  { variety := .given "regular", order_id := .given "ORD42",
    parent_order_id := .omitted, quantity := .omitted,
    price := .given 101, order_type := .omitted, trigger_price := .omitted,
    validity := .omitted, disclosed_quantity := .omitted }

/-! ### Helper lemmas -/

theorem orderVariety_parse_closed_set (s : String) :
    (OrderVariety.parse s).isSome
      ↔ s ∈ ["regular", "co", "amo", "iceberg", "auction"] := by
  unfold OrderVariety.parse
  split_ifs <;> simp_all

theorem exchange_parse_closed_set (s : String) :
    (Exchange.parse s).isSome
      ↔ s ∈ ["NSE", "BSE", "NFO", "CDS", "BFO", "MCX", "BCD"] := by
  unfold Exchange.parse
  split_ifs <;> simp_all

theorem transactionType_parse_closed_set (s : String) :
    (TransactionType.parse s).isSome ↔ s ∈ ["BUY", "SELL"] := by
  unfold TransactionType.parse
  split_ifs <;> simp_all

theorem productType_parse_closed_set (s : String) :
    (ProductType.parse s).isSome ↔ s ∈ ["MIS", "CNC", "NRML", "CO"] := by
  unfold ProductType.parse
  split_ifs <;> simp_all

theorem orderType_parse_closed_set (s : String) :
    (OrderType.parse s).isSome ↔ s ∈ ["MARKET", "LIMIT", "SL-M", "SL"] := by
  unfold OrderType.parse
  split_ifs <;> simp_all

theorem validity_parse_closed_set (s : String) :
    (Validity.parse s).isSome ↔ s ∈ ["DAY", "IOC", "TTL"] := by
  unfold Validity.parse
  split_ifs <;> simp_all

theorem positionType_parse_closed_set (s : String) :
    (PositionType.parse s).isSome ↔ s ∈ ["day", "overnight"] := by
  unfold PositionType.parse
  split_ifs <;> simp_all

theorem gttType_parse_closed_set (s : String) :
    (GTTType.parse s).isSome ↔ s ∈ ["single", "two-leg"] := by
  unfold GTTType.parse
  split_ifs <;> simp_all

theorem chartInterval_parse_closed_set (s : String) :
    (ChartInterval.parse s).isSome
      ↔ s ∈ ["minute", "day", "3minute", "5minute", "10minute", "15minute",
             "30minute", "60minute"] := by
  unfold ChartInterval.parse
  split_ifs <;> simp_all

theorem rawGTTLeg_validates : GTTOrderParams.validate rawGTTLeg = some gttLeg :=
  rfl

theorem parseGTTOrders_replicate (m : Nat) :
    parseGTTOrders (List.replicate m rawGTTLeg)
      = some (List.replicate m gttLeg) := by
  induction m with
  | zero => rfl
  | succ k ih =>
      rw [List.replicate_succ, List.replicate_succ]
      simp only [parseGTTOrders, rawGTTLeg_validates, ih]
      rfl

/-! ### Claims -/

/-- C1: the spec (and the model's own field descriptions, e.g. price is
"required for LIMIT orders") requires construction to fail when a
conditionally-required field is absent — price for LIMIT/SL, trigger_price
for SL/SL-M, iceberg_legs and iceberg_quantity for variety iceberg.  The
source declares no such validator, so construction succeeds at each
failing input: a LIMIT order without price, an SL order without
trigger_price, and an iceberg order with iceberg_legs but no
iceberg_quantity all validate. -/
theorem C1_conditional_requirements_unenforced :
    PlaceOrderRequest.validate { rawOrderBase with order_type := .given "LIMIT" }
      = some { infyMarketReq with order_type := .LIMIT }
  ∧ ({ infyMarketReq with order_type := .LIMIT } : PlaceOrderRequest).price
      = none
  ∧ (PlaceOrderRequest.validate
      { rawOrderBase with order_type := .given "SL" }).isSome = true
  ∧ (PlaceOrderRequest.validate
      { rawOrderBase with
        variety := .given "iceberg",
        iceberg_legs := .given 5 }).isSome = true :=
  ⟨rfl, rfl, rfl, rfl⟩

/-- C3 counterexample: a two-leg `PlaceGTTRequest` whose `trigger_values`
has length 1 while `orders` has length 2 (and the corresponding
`ModifyGTTRequest`) constructs successfully, refuting the claim that
construction fails unless both lists have length exactly 2 for
two-leg. -/
theorem C3_gtt_length_unchecked_cex :
    (PlaceGTTRequest.validate
      { trigger_type := .given "two-leg", tradingsymbol := .given "INFY",
        exchange := .given "NSE", trigger_values := .given [100],
        last_price := .given 1500,
        orders := .given [rawGTTLeg, rawGTTLeg] }).isSome = true
  ∧ (ModifyGTTRequest.validate
      { trigger_type := .given "two-leg", tradingsymbol := .given "INFY",
        exchange := .given "NSE", trigger_values := .given [100],
        last_price := .given 1500,
        orders := .given [rawGTTLeg, rawGTTLeg],
        trigger_id := .given "T1" }).isSome = true :=
  ⟨rfl, rfl⟩

/-- C3 amended: construction of `PlaceGTTRequest` and `ModifyGTTRequest`
performs no length or trigger-type consistency check at all — with
otherwise valid fields it succeeds for every pair of lengths of
`trigger_values` and `orders`, for both single and two-leg triggers. -/
theorem C3_gtt_any_lengths_accepted :
    ∀ (n m : Nat),
      (PlaceGTTRequest.validate (rawGTTInput "two-leg" n m)).isSome = true
    ∧ (PlaceGTTRequest.validate (rawGTTInput "single" n m)).isSome = true
    ∧ (ModifyGTTRequest.validate
        { toRawPlaceGTTInput := rawGTTInput "two-leg" n m,
          trigger_id := .given "T1" }).isSome = true
    ∧ (ModifyGTTRequest.validate
        { toRawPlaceGTTInput := rawGTTInput "single" n m,
          trigger_id := .given "T1" }).isSome = true := by
  intro n m
  refine ⟨?_, ?_, ?_, ?_⟩ <;>
    simp [PlaceGTTRequest.validate, ModifyGTTRequest.validate, rawGTTInput,
      RawField.collapse, GTTType.parse, Exchange.parse,
      parseGTTOrders_replicate]

/-- C4 counterexample: quantity −5 passes validation for
`PlaceOrderRequest`, `ConvertPositionRequest` and `GTTOrderParams`, and
the converted request's full forwarded dict still carries the negative
quantity — refuting the claim that quantity ≤ 0 is rejected before the
collaborator is reached. -/
theorem C4_nonpositive_quantity_accepted_cex :
    (PlaceOrderRequest.validate
      { rawOrderBase with quantity := .given (-5) }).isSome = true
  ∧ (ConvertPositionRequest.validate
      { rawConvBase with quantity := .given (-5) }).isSome = true
  ∧ (GTTOrderParams.validate
      { rawGTTLeg with quantity := .given (-5) }).isSome = true
  ∧ ("quantity", ParamValue.int (-5))
      ∈ ({ convReqBase with quantity := -5 } : ConvertPositionRequest).dictFull := by
  refine ⟨rfl, rfl, rfl, ?_⟩
  simp [ConvertPositionRequest.dictFull, convReqBase]

/-- C4 amended: no positivity check exists anywhere in the models — for
every integer quantity (including zero and negatives) validation succeeds
for `PlaceOrderRequest`, `ConvertPositionRequest` and `GTTOrderParams`,
and `convert_position` forwards the quantity unchanged in its parameter
dict. -/
theorem C4_quantity_unvalidated :
    ∀ (q : Int),
      PlaceOrderRequest.validate { rawOrderBase with quantity := .given q }
        = some { infyMarketReq with quantity := q }
    ∧ ConvertPositionRequest.validate { rawConvBase with quantity := .given q }
        = some { convReqBase with quantity := q }
    ∧ ("quantity", ParamValue.int q)
        ∈ ({ convReqBase with quantity := q } : ConvertPositionRequest).dictFull
    ∧ GTTOrderParams.validate { rawGTTLeg with quantity := .given q }
        = some { gttLeg with quantity := q } := by
  intro q
  refine ⟨rfl, rfl, ?_, rfl⟩
  simp [ConvertPositionRequest.dictFull, convReqBase]

/-- C9: every enumeration field accepts exactly its declared closed-set
wire value, case-sensitively — for each of the nine enums, parsing a
string succeeds if and only if the string is in the declared set, so any
case-mismatched or unknown value fails validation (which runs before any
collaborator call). -/
theorem C9_enum_closed_set_exact_match :
    ∀ (s : String),
      ((OrderVariety.parse s).isSome
        ↔ s ∈ ["regular", "co", "amo", "iceberg", "auction"])
    ∧ ((Exchange.parse s).isSome
        ↔ s ∈ ["NSE", "BSE", "NFO", "CDS", "BFO", "MCX", "BCD"])
    ∧ ((TransactionType.parse s).isSome ↔ s ∈ ["BUY", "SELL"])
    ∧ ((ProductType.parse s).isSome ↔ s ∈ ["MIS", "CNC", "NRML", "CO"])
    ∧ ((OrderType.parse s).isSome ↔ s ∈ ["MARKET", "LIMIT", "SL-M", "SL"])
    ∧ ((Validity.parse s).isSome ↔ s ∈ ["DAY", "IOC", "TTL"])
    ∧ ((PositionType.parse s).isSome ↔ s ∈ ["day", "overnight"])
    ∧ ((GTTType.parse s).isSome ↔ s ∈ ["single", "two-leg"])
    ∧ ((ChartInterval.parse s).isSome
        ↔ s ∈ ["minute", "day", "3minute", "5minute", "10minute",
               "15minute", "30minute", "60minute"]) :=
  fun s =>
    ⟨orderVariety_parse_closed_set s, exchange_parse_closed_set s,
     transactionType_parse_closed_set s, productType_parse_closed_set s,
     orderType_parse_closed_set s, validity_parse_closed_set s,
     positionType_parse_closed_set s, gttType_parse_closed_set s,
     chartInterval_parse_closed_set s⟩

/-- C2 counterexample: `get_orders` has no exception handler, so a
collaborator failure leaves the operation unwrapped (`uncaught`) rather
than being surfaced as a uniform GatewayError result. -/
theorem C2_read_ops_uncaught_cex :
    get_orders (Except.error "boom" : Except String String)
      = OpResult.uncaught "boom"
  ∧ (get_orders (Except.error "boom" : Except String String)).isGatewayError
      = false :=
  ⟨rfl, rfl⟩

/-- C2 amended: the operations whose bodies use try/except (place_order,
modify_order, cancel_order, convert_position, place_gtt, modify_gtt,
delete_gtt, get_instrument_margins, get_basket_margins,
get_order_history, get_order_trades, get_quote, get_ohlc, get_ltp,
get_historical_data) catch every collaborator exception and surface it as
the uniform wrapped GatewayError; the six read operations (get_orders,
get_trades, get_positions, get_holdings, get_margins, get_profile) have
no handler, so a collaborator exception propagates unwrapped. -/
theorem C2_error_wrapping_amended :
    (∀ (e : String),
      get_orders (Except.error e : Except String String)
        = OpResult.uncaught e)
  ∧ (∀ (e : String),
      get_trades (Except.error e : Except String String)
        = OpResult.uncaught e)
  ∧ (∀ (e : String),
      get_positions (Except.error e : Except String String)
        = OpResult.uncaught e)
  ∧ (∀ (e : String),
      get_holdings (Except.error e : Except String String)
        = OpResult.uncaught e)
  ∧ (∀ (e : String),
      get_margins (Except.error e : Except String String)
        = OpResult.uncaught e)
  ∧ (∀ (e : String),
      get_profile (Except.error e : Except String String)
        = OpResult.uncaught e)
  ∧ (∀ (e : String) (r : PlaceOrderRequest),
      place_order (fun _ => Except.error e) r
        = OpResult.gatewayError ("Failed to place order "
            ++ paramsRepr r.dictExcludeNone ++ ": " ++ e))
  ∧ (∀ (e : String) (r : ModifyOrderRequest),
      modify_order (fun _ => Except.error e) r
        = OpResult.gatewayError ("Failed to modify order: " ++ e))
  ∧ (∀ (e : String) (v : OrderVariety) (oid : String) (po : Option String),
      cancel_order (fun _ _ _ => Except.error e) v oid po
        = OpResult.gatewayError ("Failed to cancel order: " ++ e))
  ∧ (∀ (e : String) (r : ConvertPositionRequest),
      convert_position (fun _ => Except.error e) r
        = OpResult.gatewayError ("Failed to convert position: " ++ e))
  ∧ (∀ (e : String),
      place_gtt (Except.error e)
        = OpResult.gatewayError ("Failed to place GTT order: " ++ e))
  ∧ (∀ (e : String),
      modify_gtt (Except.error e)
        = OpResult.gatewayError ("Failed to modify GTT order: " ++ e))
  ∧ (∀ (e tid : String),
      delete_gtt (fun _ => Except.error e) tid
        = OpResult.gatewayError ("Failed to delete GTT order: " ++ e))
  ∧ (∀ (e : String),
      get_instrument_margins (Except.error e : Except String String)
        = OpResult.gatewayError ("Failed to get instrument margins: " ++ e))
  ∧ (∀ (e : String),
      get_basket_margins (Except.error e : Except String String)
        = OpResult.gatewayError ("Failed to get basket margins: " ++ e))
  ∧ (∀ (e : String),
      get_order_history (Except.error e : Except String String)
        = OpResult.gatewayError ("Failed to get order history: " ++ e))
  ∧ (∀ (e : String),
      get_order_trades (Except.error e : Except String String)
        = OpResult.gatewayError ("Failed to get order trades: " ++ e))
  ∧ (∀ (e : String),
      get_quote (Except.error e : Except String String)
        = OpResult.gatewayError ("Failed to get quote: " ++ e))
  ∧ (∀ (e : String),
      get_ohlc (Except.error e : Except String String)
        = OpResult.gatewayError ("Failed to get OHLC: " ++ e))
  ∧ (∀ (e : String),
      get_ltp (Except.error e : Except String String)
        = OpResult.gatewayError ("Failed to get LTP: " ++ e))
  ∧ (∀ (e : String),
      get_historical_data (Except.error e : Except String String)
        = OpResult.gatewayError ("Failed to get historical data: " ++ e)) :=
  ⟨fun _ => rfl, fun _ => rfl, fun _ => rfl, fun _ => rfl, fun _ => rfl,
   fun _ => rfl, fun _ _ => rfl, fun _ _ => rfl, fun _ _ _ _ => rfl,
   fun _ _ => rfl, fun _ => rfl, fun _ => rfl, fun _ _ => rfl,
   fun _ => rfl, fun _ => rfl, fun _ => rfl, fun _ => rfl, fun _ => rfl,
   fun _ => rfl, fun _ => rfl, fun _ => rfl⟩

/-- C5 counterexample: a `modify_order` collaborator failure is wrapped
as exactly "Failed to modify order: " plus the cause — the rejected
parameter set is not interpolated: for a request with order_id "ORD42"
the message does not even contain "ORD42". -/
theorem C5_modify_error_lacks_params_cex :
    modify_order (fun _ => Except.error "insufficient funds") modReqA
      = OpResult.gatewayError "Failed to modify order: insufficient funds"
  ∧ ¬ ("ORD42".data
        <:+: ("Failed to modify order: insufficient funds").data) :=
  ⟨rfl, by decide⟩

/-- C5 amended: a `place_order` collaborator failure yields a
GatewayError whose summary is "Failed to place order " followed by the
full forwarded parameter set and the original failure message (so the
"insufficient funds" scenario holds for place_order); a `modify_order`
failure embeds only the original message, without the parameter set. -/
theorem C5_error_summaries :
    (∀ (r : PlaceOrderRequest) (e : String),
      place_order (fun _ => Except.error e) r
        = OpResult.gatewayError ("Failed to place order "
            ++ paramsRepr r.dictExcludeNone ++ ": " ++ e))
  ∧ place_order (fun _ => Except.error "insufficient funds") infyMarketReq
      = OpResult.gatewayError ("Failed to place order "
          ++ paramsRepr infyMarketReq.dictExcludeNone
          ++ ": insufficient funds")
  ∧ (∀ (r : ModifyOrderRequest) (e : String),
      modify_order (fun _ => Except.error e) r
        = OpResult.gatewayError ("Failed to modify order: " ++ e)) :=
  ⟨fun _ _ => rfl, rfl, fun _ _ => rfl⟩

/-- C6: for a `ModifyOrderRequest` in which only order_id, variety and
price are set, the keyword set forwarded to the collaborator is exactly
[variety, order_id, price] — no unset optional field appears — and
`modify_order` invokes the collaborator with exactly that set. -/
theorem C6_modify_forwards_exactly_set_fields :
    ∀ (v : OrderVariety) (oid : String) (p : Rat)
      (g : List (String × ParamValue) → Except String String),
      ({ variety := v, order_id := oid, parent_order_id := none,
         quantity := none, price := some p, order_type := none,
         trigger_price := none, validity := none,
         disclosed_quantity := none } : ModifyOrderRequest).forwardedParams
        = [("variety", .str v.value), ("order_id", .str oid),
           ("price", .num p)]
    ∧ modify_order g
        { variety := v, order_id := oid, parent_order_id := none,
          quantity := none, price := some p, order_type := none,
          trigger_price := none, validity := none,
          disclosed_quantity := none }
        = (match g [("variety", .str v.value), ("order_id", .str oid),
                    ("price", .num p)] with
           | .ok o => OpResult.ok ("Order modified successfully. Order ID: "
               ++ o)
           | .error e =>
               OpResult.gatewayError ("Failed to modify order: " ++ e)) :=
  fun _ _ _ _ => ⟨rfl, rfl⟩

/-- C7: the spec's end-to-end market-order input (regular / NSE / INFY /
BUY / 10 / CNC / MARKET, no optional key) validates successfully, and
`place_order` forwards exactly those seven fields to the collaborator —
`dict(exclude_none=True)` drops every absent optional field. -/
theorem C7_market_order_forwards_seven_fields :
    PlaceOrderRequest.validate rawOrderBase = some infyMarketReq
  ∧ infyMarketReq.dictExcludeNone
      = [("variety", .str "regular"), ("exchange", .str "NSE"),
         ("tradingsymbol", .str "INFY"), ("transaction_type", .str "BUY"),
         ("quantity", .int 10), ("product", .str "CNC"),
         ("order_type", .str "MARKET")]
  ∧ (∀ (g : List (String × ParamValue) → Except String String),
      place_order g infyMarketReq
        = (match g [("variety", .str "regular"), ("exchange", .str "NSE"),
                    ("tradingsymbol", .str "INFY"),
                    ("transaction_type", .str "BUY"),
                    ("quantity", .int 10), ("product", .str "CNC"),
                    ("order_type", .str "MARKET")] with
           | .ok oid =>
               OpResult.ok ("Order placed successfully. Order ID: " ++ oid)
           | .error e =>
               OpResult.gatewayError ("Failed to place order "
                 ++ paramsRepr infyMarketReq.dictExcludeNone
                 ++ ": " ++ e))) :=
  ⟨rfl, rfl, fun _ => rfl⟩

/-- C8 counterexample: on a collaborator failure with cause
"network error", `delete_gtt("12345")` raises exactly
"Failed to delete GTT order: network error", which does not contain the
trigger_id "12345" — refuting the claim that the failure references the
trigger_id. -/
theorem C8_delete_gtt_error_lacks_trigger_id_cex :
    delete_gtt (fun _ => Except.error "network error") "12345"
      = OpResult.gatewayError "Failed to delete GTT order: network error"
  ∧ ¬ ("12345".data
        <:+: ("Failed to delete GTT order: network error").data) :=
  ⟨rfl, by decide⟩

/-- C8 amended: on collaborator success `delete_gtt` returns the fixed
confirmation "GTT order deleted successfully."; on collaborator failure
it returns a GatewayError embedding the original failure message
("Failed to delete GTT order: " plus the cause) that does not reference
the trigger_id — the failure result is identical for any two trigger
ids. -/
theorem C8_delete_gtt_messages :
    (∀ (tid : String),
      delete_gtt (fun _ => Except.ok ()) tid
        = OpResult.ok "GTT order deleted successfully.")
  ∧ (∀ (tid e : String),
      delete_gtt (fun _ => Except.error e) tid
        = OpResult.gatewayError ("Failed to delete GTT order: " ++ e))
  ∧ (∀ (t1 t2 e : String),
      delete_gtt (fun _ => Except.error e) t1
        = delete_gtt (fun _ => Except.error e) t2) :=
  ⟨fun _ => rfl, fun _ _ => rfl, fun _ _ _ => rfl⟩

/-- C10: the forwarding step cannot distinguish "explicitly null" from
"not provided": two raw modify-order inputs whose fields agree after
collapsing null and omitted (in particular, inputs that differ only in
some optional fields being null in one and absent in the other) validate
to the same request, hence `modify_order` invokes the collaborator with
identical parameter sets in both runs. -/
theorem C10_null_omitted_indistinguishable
    (r1 r2 : RawModifyOrderInput)
    (hv : r1.variety.collapse = r2.variety.collapse)
    (ho : r1.order_id.collapse = r2.order_id.collapse)
    (hpo : r1.parent_order_id.collapse = r2.parent_order_id.collapse)
    (hq : r1.quantity.collapse = r2.quantity.collapse)
    (hpr : r1.price.collapse = r2.price.collapse)
    (hot : r1.order_type.collapse = r2.order_type.collapse)
    (htp : r1.trigger_price.collapse = r2.trigger_price.collapse)
    (hva : r1.validity.collapse = r2.validity.collapse)
    (hd : r1.disclosed_quantity.collapse = r2.disclosed_quantity.collapse) :
    (ModifyOrderRequest.validate r1).map ModifyOrderRequest.forwardedParams
      = (ModifyOrderRequest.validate r2).map
          ModifyOrderRequest.forwardedParams := by
  unfold ModifyOrderRequest.validate parseOpt
  rw [hv, ho, hpo, hq, hpr, hot, htp, hva, hd]

/-- C10 witness: the two concrete inputs `rawModifyNulls` (unused
optional fields explicitly null) and `rawModifyOmits` (unused optional
fields absent) lead to identical forwarded parameter sets. -/
theorem C10_null_omitted_witness :
    (ModifyOrderRequest.validate rawModifyNulls).map
        ModifyOrderRequest.forwardedParams
      = (ModifyOrderRequest.validate rawModifyOmits).map
          ModifyOrderRequest.forwardedParams :=
  C10_null_omitted_indistinguishable rawModifyNulls rawModifyOmits
    rfl rfl rfl rfl rfl rfl rfl rfl rfl

end Kite
